import Mathlib

/-!
A shallow embedding of `src/prepare_pose/smplerX/mesa-18.3.3/src/mesa/drivers/dri/i965/brw_tcs.c`
(tessellation control shader state upload code of the i965 driver).

The file under verification is a thin orchestration layer: it derives a cache
key from the bound tessellation programs, consults the in-memory and disk
shader caches, and compiles and installs a TCS program on a miss.  External
collaborators (the NIR compiler backend `brw_compile_tcs`, the program cache
`brw_search_cache`/`brw_upload_cache`, the disk cache, sampler key population,
GLSL uniform setup, scratch allocation) live outside this file; they are
modelled as an oracle record `Ext` of unconstrained functions, and every
theorem quantifies over the oracle.  Calls into the collaborators are recorded
in an event trace so that control-flow claims ("returns without consulting the
disk cache") are statable.
-/

namespace BrwTcs

/-- GL enum value of GL_QUADS. -/
def GL_QUADS : Nat := 0x0007

/-- GL enum value of GL_TRIANGLES. -/
def GL_TRIANGLES : Nat := 0x0004

/-- GL enum value of GL_ISOLINES. -/
def GL_ISOLINES : Nat := 0x8E7A

/-- Value of TESS_SPACING_EQUAL in the gl_tess_spacing enum. -/
def TESS_SPACING_EQUAL : Nat := 1

/-- Value of LINKING_FAILURE in the gl_link_status enum. -/
def LINKING_FAILURE : Nat := 0

/-- Value of BRW_PARAM_BUILTIN_ZERO in the brw_param_builtin enum. -/
def BRW_PARAM_BUILTIN_ZERO : Nat := 0

/-- Value of BRW_PARAM_BUILTIN_TESS_LEVEL_OUTER_X; the OUTER_X..OUTER_W and
INNER_X, INNER_Y enumerators are consecutive, which the passthrough setup
code relies on when it writes `BRW_PARAM_BUILTIN_TESS_LEVEL_OUTER_X + i`. -/
def BRW_PARAM_BUILTIN_TESS_LEVEL_OUTER_X : Nat := 33

/-- BRW_PARAM_BUILTIN_TESS_LEVEL_OUTER_Y, the successor of OUTER_X. -/
def BRW_PARAM_BUILTIN_TESS_LEVEL_OUTER_Y : Nat :=
  BRW_PARAM_BUILTIN_TESS_LEVEL_OUTER_X + 1

/-- BRW_PARAM_BUILTIN_TESS_LEVEL_OUTER_Z. -/
def BRW_PARAM_BUILTIN_TESS_LEVEL_OUTER_Z : Nat :=
  BRW_PARAM_BUILTIN_TESS_LEVEL_OUTER_X + 2

/-- BRW_PARAM_BUILTIN_TESS_LEVEL_OUTER_W. -/
def BRW_PARAM_BUILTIN_TESS_LEVEL_OUTER_W : Nat :=
  BRW_PARAM_BUILTIN_TESS_LEVEL_OUTER_X + 3

/-- BRW_PARAM_BUILTIN_TESS_LEVEL_INNER_X. -/
def BRW_PARAM_BUILTIN_TESS_LEVEL_INNER_X : Nat :=
  BRW_PARAM_BUILTIN_TESS_LEVEL_OUTER_X + 4

/-- BRW_PARAM_BUILTIN_TESS_LEVEL_INNER_Y. -/
def BRW_PARAM_BUILTIN_TESS_LEVEL_INNER_Y : Nat :=
  BRW_PARAM_BUILTIN_TESS_LEVEL_OUTER_X + 5

/-- Abstract content of a `brw_sampler_prog_key_data` (the `tex` member of the
TCS program key).  Its internals are produced by the external routine
`brw_populate_sampler_prog_key_data`, so a single opaque payload suffices. -/
structure SamplerKey where
  data : Nat
deriving DecidableEq, Repr

/-- The `tess` sub-struct of `shader_info`. -/
structure TessInfo where
  primitive_mode : Nat
  spacing : Nat
  tcs_vertices_out : Nat
deriving DecidableEq, Repr

/-- The slice of a `nir_shader` this file reads: `nir->num_uniforms` and
`nir->info` masks (used by brw_tcs_populate_default_key). -/
structure NirShader where
  id : Nat
  num_uniforms : Nat
  outputs_written : Nat
  patch_outputs_written : Nat
deriving DecidableEq, Repr

/-- The slice of `shader_info` (`prog->info`) read by this file. -/
structure ShaderInfo where
  inputs_read : Nat
  patch_inputs_read : Nat
  outputs_written : Nat
  patch_outputs_written : Nat
  tess : TessInfo
deriving DecidableEq, Repr

/-- The slice of `gl_program` read or written by this file: its shader info,
its NIR shader, and the `sh.data->LinkStatus` / `sh.data->InfoLog` fields
written on the compile-failure path. -/
structure GlProgram where
  info : ShaderInfo
  nir : NirShader
  linkStatus : Nat
  infoLog : String
deriving DecidableEq, Repr

/-- A `brw_program`: the wrapped `gl_program` plus the driver-side `id` and
`compiled_once` fields. -/
structure BrwProgram where
  program : GlProgram
  id : Nat
  compiled_once : Bool
deriving DecidableEq, Repr

/-- `struct brw_tcs_prog_key`. -/
structure BrwTcsProgKey where
  program_string_id : Nat
  input_vertices : Nat
  outputs_written : Nat
  patch_outputs_written : Nat
  tes_primitive_mode : Nat
  quads_workaround : Bool
  tex : SamplerKey
deriving DecidableEq, Repr

/-- The all-zero key, the result of `memset(key, 0, sizeof(*key))`. -/
def zeroKey : BrwTcsProgKey :=
  { program_string_id := 0
    input_vertices := 0
    outputs_written := 0
    patch_outputs_written := 0
    tes_primitive_mode := 0
    quads_workaround := false
    tex := { data := 0 } }

/-- The slice of `brw_tcs_prog_data` (through `base.base`) this file touches:
the uniform `param` array, `nr_params`, `total_scratch` and `program_size`. -/
structure StageProgData where
  param : List Nat
  nr_params : Nat
  total_scratch : Nat
  program_size : Nat
deriving DecidableEq, Repr

/-- The result of `memset(&prog_data, 0, sizeof(prog_data))`. -/
def zeroStageProgData : StageProgData :=
  { param := [], nr_params := 0, total_scratch := 0, program_size := 0 }

/-- One entry of the in-memory program cache: key, the offset at which the
machine code was uploaded, the machine code, and the program data. -/
structure CacheEntry where
  key : BrwTcsProgKey
  offset : Nat
  program : List Nat
  prog_data : StageProgData
deriving DecidableEq, Repr

/-- `struct brw_stage_state` (`brw->tcs.base`): the installed program offset,
the installed program data pointer, and the scratch allocation. -/
structure BrwStageState where
  prog_offset : Nat
  prog_data : Option StageProgData
  scratch : Nat
deriving DecidableEq, Repr

/-- The slice of `struct brw_context` this file reads or writes.
`stateDirty` is the value of
`brw_state_dirty(brw, _NEW_TEXTURE, BRW_NEW_PATCH_PRIMITIVE | BRW_NEW_TESS_PROGRAMS)`,
an external inline helper; `samplerState` abstracts the texture/sampler
context state consumed by `brw_populate_sampler_prog_key_data`. -/
structure BrwContext where
  gen : Nat
  programs_tcs : Option BrwProgram
  programs_tes : Option BrwProgram
  patch_vertices : Nat
  samplerState : Nat
  stateDirty : Bool
  perf_debug : Bool
  shader_time : Bool
  tcs : BrwStageState
  cache : List CacheEntry
deriving DecidableEq, Repr

/-- The external collaborators called by brw_tcs.c, as unconstrained oracle
functions.  `compile_tcs` models `brw_compile_tcs` (key, prog_data in, nir,
st_index) returning either the machine code with the filled prog_data, or the
error string it reports through `*error_str`.  `upload_cache_offset` models
the cache offset chosen by `brw_upload_cache` for a new entry. -/
structure Ext where
  populate_sampler_key : Nat → GlProgram → SamplerKey
  setup_tex_for_precompile : Nat → GlProgram → SamplerKey
  create_passthrough_tcs : BrwTcsProgKey → NirShader
  setup_glsl_uniforms : GlProgram → StageProgData → StageProgData
  get_shader_time_index : GlProgram → Int
  compile_tcs : BrwTcsProgKey → StageProgData → NirShader → Int →
    Except String (List Nat × StageProgData)
  alloc_scratch : Nat → Nat → Nat
  upload_cache_offset : BrwTcsProgKey → List Nat → StageProgData → Nat
  search_cache : List CacheEntry → BrwTcsProgKey → Option (Nat × StageProgData)
  disk_cache_upload : BrwContext → Option (Nat × StageProgData)

/-- Trace of the externally visible calls a function makes, so control-flow
properties (which collaborator was consulted, with which arguments) are
statable. -/
inductive Event where
  | searchCache (key : BrwTcsProgKey)
  | diskCacheUpload
  | codegen (key : BrwTcsProgKey)
  | compileTcs (key : BrwTcsProgKey) (prog_data : StageProgData) (nir : NirShader)
  | uploadCache (key : BrwTcsProgKey)
deriving DecidableEq, Repr

/-- brw_tcs.c lines 110-132: the passthrough-TCS uniform `param` array.
Eight slots start at BRW_PARAM_BUILTIN_ZERO; the per-primitive-mode branches
then overwrite the tessellation-level slots exactly as the C loops do. -/
def tcs_passthrough_params (tes_primitive_mode : Nat) : List Nat :=
  let param := List.replicate 8 BRW_PARAM_BUILTIN_ZERO
  if tes_primitive_mode = GL_QUADS then
    let param := (List.range 4).foldl
      (fun p i => p.set (7 - i) (BRW_PARAM_BUILTIN_TESS_LEVEL_OUTER_X + i)) param
    let param := param.set 3 BRW_PARAM_BUILTIN_TESS_LEVEL_INNER_X
    param.set 2 BRW_PARAM_BUILTIN_TESS_LEVEL_INNER_Y
  else if tes_primitive_mode = GL_TRIANGLES then
    let param := (List.range 3).foldl
      (fun p i => p.set (7 - i) (BRW_PARAM_BUILTIN_TESS_LEVEL_OUTER_X + i)) param
    param.set 4 BRW_PARAM_BUILTIN_TESS_LEVEL_INNER_X
  else
    -- the C code asserts tes_primitive_mode == GL_ISOLINES here
    (param.set 7 BRW_PARAM_BUILTIN_TESS_LEVEL_OUTER_Y).set 6
      BRW_PARAM_BUILTIN_TESS_LEVEL_OUTER_X

/-- brw_tcs.c lines 86-92: the NIR shader brw_codegen_tcs_prog compiles —
the user TCS program's NIR when one is bound, else a passthrough TCS built
from the key by the external `brw_nir_create_passthrough_tcs`. -/
def codegen_nir (ext : Ext) (tcp : Option BrwProgram) (key : BrwTcsProgKey) :
    NirShader :=
  match tcp with
  | some t => t.program.nir
  | none => ext.create_passthrough_tcs key

/-- brw_tcs.c lines 94-133: the prog_data handed to brw_compile_tcs.  It is
zeroed, then for a user TCS the external GLSL-uniform setup fills it; for the
passthrough case the eight tessellation-level params are installed with
`nr_params = 8`. -/
def codegen_prog_data (ext : Ext) (tcp : Option BrwProgram)
    (key : BrwTcsProgKey) : StageProgData :=
  match tcp with
  | some t => ext.setup_glsl_uniforms t.program zeroStageProgData
  | none =>
    { zeroStageProgData with
        param := tcs_passthrough_params key.tes_primitive_mode
        nr_params := 8 }

/-- brw_tcs.c lines 135-137: the shader-time index, -1 unless the
DEBUG_SHADER_TIME mode is active and a TES program was supplied. -/
def codegen_st_index (ext : Ext) (brw : BrwContext) (tep : Option BrwProgram) :
    Int :=
  if brw.shader_time then
    match tep with
    | some t => ext.get_shader_time_index t.program
    | none => -1
  else -1

/-- Output of `brw_codegen_tcs_prog`: the success flag, the updated stage
state `brw->tcs.base`, the updated in-memory cache, the (possibly updated)
TCS and TES program objects it was handed, and the event trace. -/
structure CodegenOut where
  success : Bool
  tcs : BrwStageState
  cache : List CacheEntry
  tcp : Option BrwProgram
  tep : Option BrwProgram
  events : List Event
deriving Repr

/-- brw_tcs.c lines 72-190, `brw_codegen_tcs_prog`.  Chooses the NIR shader
(user program or passthrough), builds prog_data, and calls the compiler.  On
failure it marks the TES program's link status and info log and returns false
leaving the stage state and cache untouched; on success it allocates scratch,
uploads the program to the cache under the compiled key, installs
`prog_offset`/`prog_data`, and returns true (also setting `compiled_once`
under perf_debug). -/
def brw_codegen_tcs_prog (ext : Ext) (brw : BrwContext)
    (tcp tep : Option BrwProgram) (key : BrwTcsProgKey) : CodegenOut :=
  let stage_state := brw.tcs
  let nir := codegen_nir ext tcp key
  let prog_data := codegen_prog_data ext tcp key
  let st_index := codegen_st_index ext brw tep
  match ext.compile_tcs key prog_data nir st_index with
  | .error error_str =>
    let tep2 := match tep with
      | some t =>
        some { t with program :=
          { t.program with
              linkStatus := LINKING_FAILURE
              infoLog := t.program.infoLog ++ error_str } }
      | none => none
    { success := false
      tcs := stage_state
      cache := brw.cache
      tcp := tcp
      tep := tep2
      events := [Event.compileTcs key prog_data nir] }
  | .ok (program, prog_data2) =>
    let tcp2 :=
      if brw.perf_debug then
        match tcp with
        | some t => some { t with compiled_once := true }
        | none => none
      else tcp
    let stage2 := { stage_state with
      scratch := ext.alloc_scratch stage_state.scratch prog_data2.total_scratch }
    let offset := ext.upload_cache_offset key program prog_data2
    { success := true
      tcs := { stage2 with prog_offset := offset, prog_data := some prog_data2 }
      cache := { key := key, offset := offset, program := program,
                 prog_data := prog_data2 } :: brw.cache
      tcp := tcp2
      tep := tep
      events := [Event.compileTcs key prog_data nir, Event.uploadCache key] }

/-- brw_tcs.c lines 192-233, `brw_tcs_populate_key`.  Returns `none` exactly
when no TES program is bound: the C code unconditionally dereferences
`tep->program.info`, so a NULL TES is a NULL-pointer dereference.  Otherwise
the key is zeroed and filled from the device generation, the bound programs'
shader info, `patch_vertices`, and the sampler key data. -/
def brw_tcs_populate_key (ext : Ext) (brw : BrwContext) :
    Option BrwTcsProgKey :=
  let tcp := brw.programs_tcs
  match brw.programs_tes with
  | none => none
  | some tep =>
    let tes_prog := tep.program
    let per_vertex_slots := tes_prog.info.inputs_read
    let per_patch_slots := tes_prog.info.patch_inputs_read
    let key := zeroKey
    let per_vertex_slots := match tcp with
      | some t => per_vertex_slots ||| t.program.info.outputs_written
      | none => per_vertex_slots
    let per_patch_slots := match tcp with
      | some t => per_patch_slots ||| t.program.info.patch_outputs_written
      | none => per_patch_slots
    let key :=
      if brw.gen < 8 ∨ tcp = none then
        { key with input_vertices := brw.patch_vertices }
      else key
    let key := { key with
      outputs_written := per_vertex_slots
      patch_outputs_written := per_patch_slots
      tes_primitive_mode := tes_prog.info.tess.primitive_mode
      quads_workaround :=
        decide (brw.gen < 9) &&
        decide (tes_prog.info.tess.primitive_mode = GL_QUADS) &&
        decide (tes_prog.info.tess.spacing = TESS_SPACING_EQUAL) }
    let key := match tcp with
      | some t =>
        { key with
            program_string_id := t.id
            tex := ext.populate_sampler_key brw.samplerState t.program }
      | none => key
    some key

/-- brw_tcs.c lines 235-269, `brw_upload_tcs_prog`.  Returns `none` when the
flow reaches the NULL-TES dereference inside brw_tcs_populate_key (`assert(tep)`
is compiled out in release builds).  When the relevant state is not dirty it
returns at once; otherwise it populates the key, searches the in-memory cache,
then the disk cache, and only if both miss stores the string id and runs
brw_codegen_tcs_prog.  The event list records the collaborators consulted. -/
def brw_upload_tcs_prog (ext : Ext) (brw : BrwContext) :
    Option (BrwContext × List Event) :=
  let stage_state := brw.tcs
  if brw.stateDirty = false then some (brw, [])
  else
    match brw_tcs_populate_key ext brw with
    | none => none
    | some key =>
      match ext.search_cache brw.cache key with
      | some (offset, pd) =>
        some ({ brw with tcs :=
                 { stage_state with prog_offset := offset, prog_data := some pd } },
              [Event.searchCache key])
      | none =>
        match ext.disk_cache_upload brw with
        | some (offset, pd) =>
          some ({ brw with tcs :=
                   { stage_state with prog_offset := offset, prog_data := some pd } },
                [Event.searchCache key, Event.diskCacheUpload])
        | none =>
          let brw1 := match brw.programs_tcs with
            | some t =>
              { brw with programs_tcs := some { t with id := key.program_string_id } }
            | none => brw
          let out := brw_codegen_tcs_prog ext brw1 brw1.programs_tcs
            brw1.programs_tes key
          some ({ brw1 with
                    tcs := out.tcs
                    cache := out.cache
                    programs_tcs := out.tcp
                    programs_tes := out.tep },
                [Event.searchCache key, Event.diskCacheUpload, Event.codegen key]
                  ++ out.events)

/-- brw_tcs.c lines 271-301, `brw_tcs_populate_default_key`.  `tes` is
`sh_prog->_LinkedShaders[MESA_SHADER_TESS_EVAL]`'s program (when linked),
`btcp` the brw_program wrapping `prog`. -/
def brw_tcs_populate_default_key (ext : Ext) (gen : Nat)
    (tes : Option BrwProgram) (btcp : BrwProgram) : BrwTcsProgKey :=
  let prog := btcp.program
  let key := zeroKey
  let key := { key with program_string_id := btcp.id }
  let key := { key with tex := ext.setup_tex_for_precompile gen prog }
  let key :=
    if gen < 8 then { key with input_vertices := prog.info.tess.tcs_vertices_out }
    else key
  let key := match tes with
    | some t =>
      { key with
          tes_primitive_mode := t.program.info.tess.primitive_mode
          quads_workaround :=
            decide (gen < 9) &&
            decide (t.program.info.tess.primitive_mode = GL_QUADS) &&
            decide (t.program.info.tess.spacing = TESS_SPACING_EQUAL) }
    | none => { key with tes_primitive_mode := GL_TRIANGLES }
  { key with
      outputs_written := prog.nir.outputs_written
      patch_outputs_written := prog.nir.patch_outputs_written }

/-- brw_tcs.c lines 303-327, `brw_tcs_precompile`.  Saves
`brw->tcs.base.prog_offset` and `brw->tcs.base.prog_data`, builds the default
key, runs brw_codegen_tcs_prog, restores the two saved fields and returns the
success flag (the in-memory cache keeps the uploaded entry). -/
def brw_tcs_precompile (ext : Ext) (brw : BrwContext)
    (tes : Option BrwProgram) (btcp : BrwProgram) : Bool × BrwContext :=
  let old_prog_offset := brw.tcs.prog_offset
  let old_prog_data := brw.tcs.prog_data
  let key := brw_tcs_populate_default_key ext brw.gen tes btcp
  let out := brw_codegen_tcs_prog ext brw (some btcp) tes key
  let brw2 := { brw with tcs := out.tcs, cache := out.cache }
  let brw3 := { brw2 with tcs :=
    { brw2.tcs with prog_offset := old_prog_offset, prog_data := old_prog_data } }
  (out.success, brw3)

end BrwTcs

namespace BrwTcs

/-- C3: with no user TCS bound, brw_codegen_tcs_prog compiles the passthrough
shader built from the key and succeeds exactly when the compiler does. -/
theorem brw_codegen_tcs_prog_passthrough_no_fail
    (ext : Ext) (brw : BrwContext) (tep : Option BrwProgram)
    (key : BrwTcsProgKey) :
    codegen_nir ext none key = ext.create_passthrough_tcs key
    ∧ (brw_codegen_tcs_prog ext brw none tep key).events.head? =
        some (Event.compileTcs key (codegen_prog_data ext none key)
          (ext.create_passthrough_tcs key))
    ∧ ((brw_codegen_tcs_prog ext brw none tep key).success = true ↔
        ∃ r, ext.compile_tcs key (codegen_prog_data ext none key)
          (ext.create_passthrough_tcs key) (codegen_st_index ext brw tep) =
          .ok r) := by
  refine ⟨rfl, ?_, ?_⟩ <;>
    rcases h : ext.compile_tcs key (codegen_prog_data ext none key)
      (ext.create_passthrough_tcs key) (codegen_st_index ext brw tep) with e | r <;>
    simp [brw_codegen_tcs_prog, codegen_nir, h]

end BrwTcs

namespace BrwTcs

/-- C5: whenever the compiler succeeds, brw_codegen_tcs_prog uploads the
machine code under the compiled key and installs prog_offset/prog_data. -/
theorem brw_codegen_tcs_prog_install_on_success
    (ext : Ext) (brw : BrwContext) (tcp tep : Option BrwProgram)
    (key : BrwTcsProgKey) (program : List Nat) (pd2 : StageProgData)
    (hok : ext.compile_tcs key (codegen_prog_data ext tcp key)
      (codegen_nir ext tcp key) (codegen_st_index ext brw tep) =
      .ok (program, pd2)) :
    (brw_codegen_tcs_prog ext brw tcp tep key).success = true
    ∧ (brw_codegen_tcs_prog ext brw tcp tep key).cache =
        { key := key, offset := ext.upload_cache_offset key program pd2,
          program := program, prog_data := pd2 } :: brw.cache
    ∧ (brw_codegen_tcs_prog ext brw tcp tep key).tcs.prog_offset =
        ext.upload_cache_offset key program pd2
    ∧ (brw_codegen_tcs_prog ext brw tcp tep key).tcs.prog_data = some pd2 := by
  simp [brw_codegen_tcs_prog, hok]

/-- C7: brw_codegen_tcs_prog fails exactly when brw_compile_tcs does, and on
that path leaves the cache and stage state untouched, uploads nothing, and
marks the supplied TES program's link status and info log. -/
theorem brw_codegen_tcs_prog_failure_path
    (ext : Ext) (brw : BrwContext) (tcp tep : Option BrwProgram)
    (key : BrwTcsProgKey) :
    ((brw_codegen_tcs_prog ext brw tcp tep key).success = false ↔
      ∃ err, ext.compile_tcs key (codegen_prog_data ext tcp key)
        (codegen_nir ext tcp key) (codegen_st_index ext brw tep) = .error err)
    ∧ ∀ err, ext.compile_tcs key (codegen_prog_data ext tcp key)
        (codegen_nir ext tcp key) (codegen_st_index ext brw tep) = .error err →
      (brw_codegen_tcs_prog ext brw tcp tep key).cache = brw.cache
      ∧ (brw_codegen_tcs_prog ext brw tcp tep key).tcs = brw.tcs
      ∧ Event.uploadCache key ∉ (brw_codegen_tcs_prog ext brw tcp tep key).events
      ∧ (brw_codegen_tcs_prog ext brw tcp tep key).tep =
          Option.map (fun t =>
            { t with program :=
              { t.program with
                  linkStatus := LINKING_FAILURE
                  infoLog := t.program.infoLog ++ err } }) tep := by
  constructor
  · rcases h : ext.compile_tcs key (codegen_prog_data ext tcp key)
      (codegen_nir ext tcp key) (codegen_st_index ext brw tep) with e | r <;>
      simp [brw_codegen_tcs_prog, h]
  · intro err herr
    rcases tep with _ | t <;> simp [brw_codegen_tcs_prog, herr]

/-- C8: brw_tcs_precompile restores brw->tcs.base.prog_offset and
brw->tcs.base.prog_data to their pre-call values and returns exactly the
compilation's success flag. -/
theorem brw_tcs_precompile_frame (ext : Ext) (brw : BrwContext)
    (tes : Option BrwProgram) (btcp : BrwProgram) :
    (brw_tcs_precompile ext brw tes btcp).2.tcs.prog_offset =
      brw.tcs.prog_offset
    ∧ (brw_tcs_precompile ext brw tes btcp).2.tcs.prog_data = brw.tcs.prog_data
    ∧ (brw_tcs_precompile ext brw tes btcp).1 =
        (brw_codegen_tcs_prog ext brw (some btcp) tes
          (brw_tcs_populate_default_key ext brw.gen tes btcp)).success :=
  ⟨rfl, rfl, rfl⟩

/-- C9: in the passthrough case the prog_data handed to the compiler has
exactly 8 params, laid out per tes_primitive_mode as the claim states. -/
theorem brw_codegen_tcs_prog_passthrough_params
    (ext : Ext) (brw : BrwContext) (tep : Option BrwProgram)
    (key : BrwTcsProgKey) :
    (brw_codegen_tcs_prog ext brw none tep key).events.head? =
      some (Event.compileTcs key (codegen_prog_data ext none key)
        (codegen_nir ext none key))
    ∧ (codegen_prog_data ext none key).nr_params = 8
    ∧ (codegen_prog_data ext none key).param =
        tcs_passthrough_params key.tes_primitive_mode
    ∧ (key.tes_primitive_mode = GL_QUADS →
        tcs_passthrough_params key.tes_primitive_mode =
          [BRW_PARAM_BUILTIN_ZERO, BRW_PARAM_BUILTIN_ZERO,
           BRW_PARAM_BUILTIN_TESS_LEVEL_INNER_Y,
           BRW_PARAM_BUILTIN_TESS_LEVEL_INNER_X,
           BRW_PARAM_BUILTIN_TESS_LEVEL_OUTER_W,
           BRW_PARAM_BUILTIN_TESS_LEVEL_OUTER_Z,
           BRW_PARAM_BUILTIN_TESS_LEVEL_OUTER_Y,
           BRW_PARAM_BUILTIN_TESS_LEVEL_OUTER_X])
    ∧ (key.tes_primitive_mode = GL_TRIANGLES →
        tcs_passthrough_params key.tes_primitive_mode =
          [BRW_PARAM_BUILTIN_ZERO, BRW_PARAM_BUILTIN_ZERO,
           BRW_PARAM_BUILTIN_ZERO, BRW_PARAM_BUILTIN_ZERO,
           BRW_PARAM_BUILTIN_TESS_LEVEL_INNER_X,
           BRW_PARAM_BUILTIN_TESS_LEVEL_OUTER_Z,
           BRW_PARAM_BUILTIN_TESS_LEVEL_OUTER_Y,
           BRW_PARAM_BUILTIN_TESS_LEVEL_OUTER_X])
    ∧ (key.tes_primitive_mode = GL_ISOLINES →
        tcs_passthrough_params key.tes_primitive_mode =
          [BRW_PARAM_BUILTIN_ZERO, BRW_PARAM_BUILTIN_ZERO,
           BRW_PARAM_BUILTIN_ZERO, BRW_PARAM_BUILTIN_ZERO,
           BRW_PARAM_BUILTIN_ZERO, BRW_PARAM_BUILTIN_ZERO,
           BRW_PARAM_BUILTIN_TESS_LEVEL_OUTER_X,
           BRW_PARAM_BUILTIN_TESS_LEVEL_OUTER_Y]) := by
  refine ⟨?_, rfl, rfl, ?_, ?_, ?_⟩
  · rcases h : ext.compile_tcs key (codegen_prog_data ext none key)
      (codegen_nir ext none key) (codegen_st_index ext brw tep) with e | r <;>
      simp [brw_codegen_tcs_prog, h]
  all_goals intro hmode; rw [hmode]; decide

end BrwTcs

namespace BrwTcs

/-- C2: brw_tcs_populate_key is a function of the device generation, the
bound TCS and TES programs' state, patch_vertices, and the sampler state
only; buffer identity, the caches and the installed pipeline state are
irrelevant. -/
theorem brw_tcs_populate_key_deterministic
    (ext : Ext) (b1 b2 : BrwContext)
    (hgen : b1.gen = b2.gen)
    (hpv : b1.patch_vertices = b2.patch_vertices)
    (hss : b1.samplerState = b2.samplerState)
    (htes : Option.map (fun t => t.program.info) b1.programs_tes =
            Option.map (fun t => t.program.info) b2.programs_tes)
    (htcs : Option.map (fun t => (t.id, t.program)) b1.programs_tcs =
            Option.map (fun t => (t.id, t.program)) b2.programs_tcs) :
    brw_tcs_populate_key ext b1 = brw_tcs_populate_key ext b2 := by
  rcases h1 : b1.programs_tes with _ | tep1 <;>
    rcases h2 : b2.programs_tes with _ | tep2
  · simp [brw_tcs_populate_key, h1, h2]
  · rw [h1, h2] at htes; exact absurd htes (by simp)
  · rw [h1, h2] at htes; exact absurd htes (by simp)
  · rw [h1, h2] at htes
    have hinfo : tep1.program.info = tep2.program.info := by simpa using htes
    rcases hc1 : b1.programs_tcs with _ | t1 <;>
      rcases hc2 : b2.programs_tcs with _ | t2
    · simp [brw_tcs_populate_key, h1, h2, hc1, hc2, hgen, hpv, hss, hinfo]
    · rw [hc1, hc2] at htcs; exact absurd htcs (by simp)
    · rw [hc1, hc2] at htcs; exact absurd htcs (by simp)
    · rw [hc1, hc2] at htcs
      have hpair : t1.id = t2.id ∧ t1.program = t2.program := by
        simpa using htcs
      obtain ⟨hid, hprog⟩ := hpair
      simp [brw_tcs_populate_key, h1, h2, hc1, hc2, hgen, hpv, hss, hinfo,
        hid, hprog]

end BrwTcs

namespace BrwTcs

/-- C4: the populated key combines the TES inputs with the TCS outputs, takes
the TES primitive mode, and reads patch_vertices exactly when gen < 8 or no
TCS is bound (the field otherwise keeps its memset value 0). -/
theorem brw_tcs_populate_key_fields
    (ext : Ext) (brw : BrwContext) (tep : BrwProgram) (key : BrwTcsProgKey)
    (htes : brw.programs_tes = some tep)
    (hkey : brw_tcs_populate_key ext brw = some key) :
    key.outputs_written =
      (match brw.programs_tcs with
       | some t => tep.program.info.inputs_read ||| t.program.info.outputs_written
       | none => tep.program.info.inputs_read)
    ∧ key.patch_outputs_written =
      (match brw.programs_tcs with
       | some t =>
         tep.program.info.patch_inputs_read ||| t.program.info.patch_outputs_written
       | none => tep.program.info.patch_inputs_read)
    ∧ key.tes_primitive_mode = tep.program.info.tess.primitive_mode
    ∧ key.input_vertices =
      (if brw.gen < 8 ∨ brw.programs_tcs = none then brw.patch_vertices else 0) := by
  unfold brw_tcs_populate_key at hkey
  rw [htes] at hkey
  rcases hc : brw.programs_tcs with _ | t <;> rw [hc] at hkey <;>
    simp only [Option.some.injEq] at hkey <;> subst hkey <;>
    by_cases hcond : brw.gen < 8 <;>
    simp [hc, hcond, zeroKey]

/-- C6: a bound TES program is the precondition of brw_tcs_populate_key and
brw_upload_tcs_prog: with one bound both functions complete (a NULL TCS is
handled by explicit branches), and with none brw_tcs_populate_key hits its
NULL dereference of the TES program. -/
theorem brw_tcs_requires_tes (ext : Ext) (brw : BrwContext) :
    ((∃ tep, brw.programs_tes = some tep) →
      (∃ k, brw_tcs_populate_key ext brw = some k)
      ∧ ∃ r, brw_upload_tcs_prog ext brw = some r)
    ∧ (brw.programs_tes = none → brw_tcs_populate_key ext brw = none) := by
  constructor
  · rintro ⟨tep, htes⟩
    have hkey : ∃ k, brw_tcs_populate_key ext brw = some k :=
      ⟨_, by unfold brw_tcs_populate_key; rw [htes]⟩
    refine ⟨hkey, ?_⟩
    obtain ⟨k, hk⟩ := hkey
    unfold brw_upload_tcs_prog
    rcases hdirty : brw.stateDirty
    · simp [hdirty]
    · rw [hk]
      rcases hs : ext.search_cache brw.cache k with _ | ⟨off, pd⟩
      · rcases hd : ext.disk_cache_upload brw with _ | ⟨off2, pd2⟩ <;>
          simp [hdirty, hs, hd]
      · simp [hdirty, hs]
  · intro htes
    unfold brw_tcs_populate_key
    rw [htes]

end BrwTcs

namespace BrwTcs

/-- C1: on a dirty call, brw_upload_tcs_prog first populates the key and
searches the in-memory cache; a hit returns at once with no disk-cache and
no codegen call, and codegen runs only when both caches miss. -/
theorem brw_upload_tcs_prog_cache_before_compile
    (ext : Ext) (brw : BrwContext) (key : BrwTcsProgKey)
    (hdirty : brw.stateDirty = true)
    (hkey : brw_tcs_populate_key ext brw = some key) :
    (∀ brw2 evs, brw_upload_tcs_prog ext brw = some (brw2, evs) →
      evs.head? = some (Event.searchCache key))
    ∧ (∀ off pd, ext.search_cache brw.cache key = some (off, pd) →
        brw_upload_tcs_prog ext brw =
          some ({ brw with
                    tcs := { brw.tcs with
                              prog_offset := off
                              prog_data := some pd } },
                [Event.searchCache key]))
    ∧ (∀ brw2 evs, brw_upload_tcs_prog ext brw = some (brw2, evs) →
        Event.codegen key ∈ evs →
        ext.search_cache brw.cache key = none
        ∧ ext.disk_cache_upload brw = none) := by
  refine ⟨?_, ?_, ?_⟩
  · intro brw2 evs hup
    unfold brw_upload_tcs_prog at hup
    rw [hkey] at hup
    simp [hdirty] at hup
    rcases hs : ext.search_cache brw.cache key with _ | ⟨off, pd⟩ <;>
      rw [hs] at hup
    · rcases hd : ext.disk_cache_upload brw with _ | ⟨off2, pd2⟩ <;>
        rw [hd] at hup <;> simp at hup <;> obtain ⟨-, hevs⟩ := hup <;>
        simp [← hevs]
    · simp at hup
      obtain ⟨-, hevs⟩ := hup
      simp [← hevs]
  · intro off pd hs
    unfold brw_upload_tcs_prog
    simp [hdirty, hkey, hs]
  · intro brw2 evs hup hmem
    unfold brw_upload_tcs_prog at hup
    rw [hkey] at hup
    simp [hdirty] at hup
    rcases hs : ext.search_cache brw.cache key with _ | ⟨off, pd⟩ <;>
      rw [hs] at hup
    · rcases hd : ext.disk_cache_upload brw with _ | ⟨off2, pd2⟩ <;>
        rw [hd] at hup <;> simp at hup
      · exact ⟨rfl, rfl⟩
      · obtain ⟨-, hevs⟩ := hup
        rw [← hevs] at hmem
        simp at hmem
    · simp at hup
      obtain ⟨-, hevs⟩ := hup
      rw [← hevs] at hmem
      simp at hmem

end BrwTcs

namespace BrwTcs

/-- A concrete oracle instance used by the witness theorems: the compiler
always succeeds, the in-memory cache is an association list, the disk cache
always misses. -/
def ext0 : Ext where
  populate_sampler_key := fun s _ => { data := s }
  setup_tex_for_precompile := fun g _ => { data := g }
  create_passthrough_tcs := fun _ =>
    { id := 100, num_uniforms := 32, outputs_written := 0,
      patch_outputs_written := 0 }
  setup_glsl_uniforms := fun _ pd => pd
  get_shader_time_index := fun _ => 0
  compile_tcs := fun _ pd _ _ => .ok ([1, 2, 3], pd)
  alloc_scratch := fun a b => max a b
  upload_cache_offset := fun _ _ _ => 64
  search_cache := fun cache key =>
    (cache.find? (fun e => decide (e.key = key))).map
      (fun e => (e.offset, e.prog_data))
  disk_cache_upload := fun _ => none

/-- ext0 with an always-failing compiler, for the failure-path witness. -/
def extFail : Ext :=
  { ext0 with compile_tcs := fun _ _ _ _ => .error "tcs compile failed" }

/-- Concrete tessellation info for witness programs. -/
def tessInfo0 : TessInfo :=
  { primitive_mode := GL_TRIANGLES, spacing := TESS_SPACING_EQUAL,
    tcs_vertices_out := 3 }

/-- Concrete NIR shader for witness programs. -/
def nir0 : NirShader :=
  { id := 1, num_uniforms := 32, outputs_written := 5,
    patch_outputs_written := 3 }

/-- Concrete shader info for witness programs. -/
def info0 : ShaderInfo :=
  { inputs_read := 10, patch_inputs_read := 4, outputs_written := 20,
    patch_outputs_written := 6, tess := tessInfo0 }

/-- Concrete gl_program for witness programs. -/
def glProg0 : GlProgram :=
  { info := info0, nir := nir0, linkStatus := 1, infoLog := "" }

/-- Concrete bound TCS program. -/
def tcp0 : BrwProgram := { program := glProg0, id := 7, compiled_once := false }

/-- Concrete bound TES program. -/
def tep0 : BrwProgram := { program := glProg0, id := 8, compiled_once := false }

/-- Concrete stage state. -/
def stage0 : BrwStageState :=
  { prog_offset := 0, prog_data := none, scratch := 0 }

/-- Concrete context with both tessellation programs bound and dirty state. -/
def brw0 : BrwContext :=
  { gen := 9, programs_tcs := some tcp0, programs_tes := some tep0,
    patch_vertices := 4, samplerState := 2, stateDirty := true,
    perf_debug := false, shader_time := false, tcs := stage0, cache := [] }

/-- The key brw_tcs_populate_key produces for ext0/brw0. -/
def key0 : BrwTcsProgKey :=
  { program_string_id := 7, input_vertices := 0, outputs_written := 30,
    patch_outputs_written := 6, tes_primitive_mode := GL_TRIANGLES,
    quads_workaround := false, tex := { data := 2 } }

/-- brw0 with the same semantic program state but different pipeline state,
cache contents, dirty bits and debug flags. -/
def brw0b : BrwContext :=
  { brw0 with
      stateDirty := false
      perf_debug := true
      shader_time := true
      tcs := { prog_offset := 99, prog_data := some zeroStageProgData,
               scratch := 5 }
      cache := [{ key := key0, offset := 64, program := [1, 2, 3],
                  prog_data := zeroStageProgData }] }

/-- brw0 with no TES program bound. -/
def brwNoTes : BrwContext := { brw0 with programs_tes := none }

/-- Witness for C1: the cache-flow theorem applied at ext0/brw0/key0. -/
theorem brw_upload_tcs_prog_cache_before_compile_witness :
    brw0.stateDirty = true
    ∧ brw_tcs_populate_key ext0 brw0 = some key0
    ∧ ((∀ brw2 evs, brw_upload_tcs_prog ext0 brw0 = some (brw2, evs) →
          evs.head? = some (Event.searchCache key0))
       ∧ (∀ off pd, ext0.search_cache brw0.cache key0 = some (off, pd) →
           brw_upload_tcs_prog ext0 brw0 =
             some ({ brw0 with
                       tcs := { brw0.tcs with
                                 prog_offset := off
                                 prog_data := some pd } },
                   [Event.searchCache key0]))
       ∧ (∀ brw2 evs, brw_upload_tcs_prog ext0 brw0 = some (brw2, evs) →
           Event.codegen key0 ∈ evs →
           ext0.search_cache brw0.cache key0 = none
           ∧ ext0.disk_cache_upload brw0 = none)) :=
  ⟨rfl, rfl,
   brw_upload_tcs_prog_cache_before_compile ext0 brw0 key0 rfl rfl⟩

/-- Witness for C2: determinism applied to brw0 and brw0b, which differ in
pipeline state, caches and debug flags only. -/
theorem brw_tcs_populate_key_deterministic_witness :
    brw0.gen = brw0b.gen
    ∧ brw0.patch_vertices = brw0b.patch_vertices
    ∧ brw0.samplerState = brw0b.samplerState
    ∧ Option.map (fun t => t.program.info) brw0.programs_tes =
        Option.map (fun t => t.program.info) brw0b.programs_tes
    ∧ Option.map (fun t => (t.id, t.program)) brw0.programs_tcs =
        Option.map (fun t => (t.id, t.program)) brw0b.programs_tcs
    ∧ brw_tcs_populate_key ext0 brw0 = brw_tcs_populate_key ext0 brw0b :=
  ⟨rfl, rfl, rfl, rfl, rfl,
   brw_tcs_populate_key_deterministic ext0 brw0 brw0b rfl rfl rfl rfl rfl⟩

/-- Witness for C4: the key-field theorem applied at ext0/brw0. -/
theorem brw_tcs_populate_key_fields_witness :
    brw0.programs_tes = some tep0
    ∧ brw_tcs_populate_key ext0 brw0 = some key0
    ∧ (key0.outputs_written =
        (match brw0.programs_tcs with
         | some t =>
           tep0.program.info.inputs_read ||| t.program.info.outputs_written
         | none => tep0.program.info.inputs_read)
       ∧ key0.patch_outputs_written =
        (match brw0.programs_tcs with
         | some t =>
           tep0.program.info.patch_inputs_read |||
             t.program.info.patch_outputs_written
         | none => tep0.program.info.patch_inputs_read)
       ∧ key0.tes_primitive_mode = tep0.program.info.tess.primitive_mode
       ∧ key0.input_vertices =
          (if brw0.gen < 8 ∨ brw0.programs_tcs = none then brw0.patch_vertices
           else 0)) :=
  ⟨rfl, rfl, brw_tcs_populate_key_fields ext0 brw0 tep0 key0 rfl rfl⟩

/-- Witness for C5: the install-on-success theorem at the always-succeeding
oracle ext0. -/
theorem brw_codegen_tcs_prog_install_on_success_witness :
    ext0.compile_tcs key0 (codegen_prog_data ext0 (some tcp0) key0)
      (codegen_nir ext0 (some tcp0) key0)
      (codegen_st_index ext0 brw0 (some tep0)) =
      .ok ([1, 2, 3], zeroStageProgData)
    ∧ ((brw_codegen_tcs_prog ext0 brw0 (some tcp0) (some tep0) key0).success =
        true
       ∧ (brw_codegen_tcs_prog ext0 brw0 (some tcp0) (some tep0) key0).cache =
          { key := key0,
            offset := ext0.upload_cache_offset key0 [1, 2, 3] zeroStageProgData,
            program := [1, 2, 3], prog_data := zeroStageProgData } :: brw0.cache
       ∧ (brw_codegen_tcs_prog ext0 brw0 (some tcp0) (some tep0)
            key0).tcs.prog_offset =
          ext0.upload_cache_offset key0 [1, 2, 3] zeroStageProgData
       ∧ (brw_codegen_tcs_prog ext0 brw0 (some tcp0) (some tep0)
            key0).tcs.prog_data = some zeroStageProgData) :=
  ⟨rfl,
   brw_codegen_tcs_prog_install_on_success ext0 brw0 (some tcp0) (some tep0)
     key0 [1, 2, 3] zeroStageProgData rfl⟩

/-- Witness for C6: the TES-precondition theorem at brw0 (TES bound) and
brwNoTes (no TES bound). -/
theorem brw_tcs_requires_tes_witness :
    ((∃ k, brw_tcs_populate_key ext0 brw0 = some k)
      ∧ ∃ r, brw_upload_tcs_prog ext0 brw0 = some r)
    ∧ brw_tcs_populate_key ext0 brwNoTes = none :=
  ⟨(brw_tcs_requires_tes ext0 brw0).1 ⟨tep0, rfl⟩,
   (brw_tcs_requires_tes ext0 brwNoTes).2 rfl⟩

/-- Witness for C7: the failure-path theorem at the always-failing oracle. -/
theorem brw_codegen_tcs_prog_failure_path_witness :
    extFail.compile_tcs key0 (codegen_prog_data extFail (some tcp0) key0)
      (codegen_nir extFail (some tcp0) key0)
      (codegen_st_index extFail brw0 (some tep0)) =
      .error "tcs compile failed"
    ∧ ((brw_codegen_tcs_prog extFail brw0 (some tcp0) (some tep0) key0).cache =
        brw0.cache
       ∧ (brw_codegen_tcs_prog extFail brw0 (some tcp0) (some tep0) key0).tcs =
          brw0.tcs
       ∧ Event.uploadCache key0 ∉
          (brw_codegen_tcs_prog extFail brw0 (some tcp0) (some tep0)
            key0).events
       ∧ (brw_codegen_tcs_prog extFail brw0 (some tcp0) (some tep0) key0).tep =
          Option.map (fun t =>
            { t with program :=
              { t.program with
                  linkStatus := LINKING_FAILURE
                  infoLog := t.program.infoLog ++ "tcs compile failed" } })
            (some tep0)) :=
  ⟨rfl,
   (brw_codegen_tcs_prog_failure_path extFail brw0 (some tcp0) (some tep0)
     key0).2 "tcs compile failed" rfl⟩

/-- key0 with GL_QUADS as the TES primitive mode. -/
def keyQ : BrwTcsProgKey := { key0 with tes_primitive_mode := GL_QUADS }

/-- key0 with GL_ISOLINES as the TES primitive mode. -/
def keyI : BrwTcsProgKey := { key0 with tes_primitive_mode := GL_ISOLINES }

/-- Witness for C9: the passthrough-param layout at each primitive mode. -/
theorem brw_codegen_tcs_prog_passthrough_params_witness :
    tcs_passthrough_params keyQ.tes_primitive_mode =
      [BRW_PARAM_BUILTIN_ZERO, BRW_PARAM_BUILTIN_ZERO,
       BRW_PARAM_BUILTIN_TESS_LEVEL_INNER_Y,
       BRW_PARAM_BUILTIN_TESS_LEVEL_INNER_X,
       BRW_PARAM_BUILTIN_TESS_LEVEL_OUTER_W,
       BRW_PARAM_BUILTIN_TESS_LEVEL_OUTER_Z,
       BRW_PARAM_BUILTIN_TESS_LEVEL_OUTER_Y,
       BRW_PARAM_BUILTIN_TESS_LEVEL_OUTER_X]
    ∧ tcs_passthrough_params key0.tes_primitive_mode =
      [BRW_PARAM_BUILTIN_ZERO, BRW_PARAM_BUILTIN_ZERO,
       BRW_PARAM_BUILTIN_ZERO, BRW_PARAM_BUILTIN_ZERO,
       BRW_PARAM_BUILTIN_TESS_LEVEL_INNER_X,
       BRW_PARAM_BUILTIN_TESS_LEVEL_OUTER_Z,
       BRW_PARAM_BUILTIN_TESS_LEVEL_OUTER_Y,
       BRW_PARAM_BUILTIN_TESS_LEVEL_OUTER_X]
    ∧ tcs_passthrough_params keyI.tes_primitive_mode =
      [BRW_PARAM_BUILTIN_ZERO, BRW_PARAM_BUILTIN_ZERO,
       BRW_PARAM_BUILTIN_ZERO, BRW_PARAM_BUILTIN_ZERO,
       BRW_PARAM_BUILTIN_ZERO, BRW_PARAM_BUILTIN_ZERO,
       BRW_PARAM_BUILTIN_TESS_LEVEL_OUTER_X,
       BRW_PARAM_BUILTIN_TESS_LEVEL_OUTER_Y] :=
  ⟨(brw_codegen_tcs_prog_passthrough_params ext0 brw0 none keyQ).2.2.2.1 rfl,
   (brw_codegen_tcs_prog_passthrough_params ext0 brw0 none key0).2.2.2.2.1 rfl,
   (brw_codegen_tcs_prog_passthrough_params ext0 brw0 none keyI).2.2.2.2.2 rfl⟩

end BrwTcs
